import Mathlib

/-!
Verification of the mod.io client library's request pipeline, filter
serialization, pagination arithmetic and error classification, as a shallow
embedding of `src/modio/client.py`, `src/modio/enums.py` and
`src/async_modio/objects.py`.
-/

namespace Modio

/-- Embedding of `EventType` from `src/modio/enums.py` (lines 183-195). -/
inductive EventType where
  | file_changed
  | available
  | unavailable
  | edited
  | deleted
  | team_changed
  | team_join
  | team_leave
  | subscribe
  | unsubscribe
  | other
deriving DecidableEq, Repr

/-- The numeric `.value` of each `EventType` member, as declared in the enum. -/
def EventType.val : EventType → Int
  | .file_changed => 0
  | .available => 1
  | .unavailable => 2
  | .edited => 3
  | .deleted => 4
  | .team_changed => 5
  | .team_join => 6
  | .team_leave => 7
  | .subscribe => 8
  | .unsubscribe => 9
  | .other => 10

/-- The Python `.name` of each `EventType` member. -/
def EventType.pyname : EventType → String
  | .file_changed => "file_changed"
  | .available => "available"
  | .unavailable => "unavailable"
  | .edited => "edited"
  | .deleted => "deleted"
  | .team_changed => "team_changed"
  | .team_join => "team_join"
  | .team_leave => "team_leave"
  | .subscribe => "subscribe"
  | .unsubscribe => "unsubscribe"
  | .other => "other"

/-- Python `EventType[name]` lookup by member name; `none` models the
`KeyError` raised for an unknown name. -/
def EventType.fromName : String → Option EventType
  | "file_changed" => some .file_changed
  | "available" => some .available
  | "unavailable" => some .unavailable
  | "edited" => some .edited
  | "deleted" => some .deleted
  | "team_changed" => some .team_changed
  | "team_join" => some .team_join
  | "team_leave" => some .team_leave
  | "subscribe" => some .subscribe
  | "unsubscribe" => some .unsubscribe
  | "other" => some .other
  | _ => none

/-- The Python values that flow through the filter/parameter dictionaries of
the library: `None`, strings, ints, `EventType` members, and members of the
other enums of `enums.py`, carrying their member `.name` and numeric
`.value`. -/
inductive PyVal where
  | noneV
  | str (s : String)
  | int (n : Int)
  | event (e : EventType)
  | enumv (name : String) (v : Int)
deriving DecidableEq, Repr

/-- Python `str(x)` for the values the library serializes (used by
`",".join(str(x) for x in value)` in `Filter.values_in`). For a
non-`EventType` enum member the repo's `IntFlag` classes override
`__str__` to the bare member name, while the plain `Enum` classes keep the
class-qualified default; the member name stands in for both (the class
qualifier is not carried, and no theorem here depends on this case). -/
def pyStr : PyVal → String
  | .noneV => "None"
  | .str s => s
  | .int n => toString n
  | .event e => "EventType." ++ e.pyname
  | .enumv name _ => name

/-- A Python `dict` with string keys, as an ordered association list. -/
abbrev PyDict := List (String × PyVal)

/-- Lookup in a `PyDict` (Python `d[k]` / `d.get(k)` / `k in d`).
Dictionaries produced by the library's operations have unique keys. -/
def dget (d : PyDict) (k : String) : Option PyVal :=
  match d with
  | [] => none
  | p :: rest => if p.1 = k then some p.2 else dget rest k

/-- Python `d[k] = v` / `__setattr__`: binds `k` to `v`, overwriting any
previous binding for `k` (up to key order, which no lookup observes). -/
def dsetKey (d : PyDict) (k : String) (v : PyVal) : PyDict :=
  d.filter (fun p => p.1 != k) ++ [(k, v)]

/-- Python `{**a, **b}`: entries of `b` override entries of `a` on key
collision (later keyword set wins). -/
def dictMerge (a b : PyDict) : PyDict :=
  b.foldl (fun acc kv => dsetKey acc kv.1 kv.2) a

/-! ## Filter serialization (`src/async_modio/objects.py`, class `Filter`)

`Filter._set` first translates the library-facing field name through the
`_lib_to_api` table (imported from `utils.py`, which is not part of `src/`;
per the spec it maps library names to wire names and lets unmapped names pass
through unchanged). The embedding therefore takes the translation as an
explicit function argument `tr`. -/

/-- Python `s.replace(pat, rep)` over the character list: replace
non-overlapping occurrences left to right, never rescanning replaced text.
The fuel argument (initialized to the string length) only bounds recursion;
it never runs out for the non-empty patterns the library uses. -/
def pyReplaceFuel (pat rep : List Char) : Nat → List Char → List Char
  | _, [] => []
  | 0, s => s
  | fuel + 1, c :: rest =>
    if pat.isPrefixOf (c :: rest) then
      rep ++ pyReplaceFuel pat rep fuel ((c :: rest).drop pat.length)
    else
      c :: pyReplaceFuel pat rep fuel rest

/-- Python `s.replace(pat, rep)`. -/
def pyReplace (s pat rep : String) : String :=
  ⟨pyReplaceFuel pat.toList rep.toList s.toList.length s.toList⟩

/-- Python `s.upper()` (the library only upper-cases ASCII member names). -/
def pyUpper (s : String) : String := ⟨s.toList.map Char.toUpper⟩

/-- Python `s.lower()` (the library only lower-cases ASCII wire names). -/
def pyLower (s : String) : String := ⟨s.toList.map Char.toLower⟩

/-- Python `s.startswith(p)`. -/
def pyStarts (s p : String) : Bool := p.toList.isPrefixOf s.toList

/-- Modelled from the spec: the `_lib_to_api` field-name translation table
lives in `utils.py`, which is absent from `src/`. The spec records only that
unmapped names pass through unchanged and its serialization examples use
names that pass through, so the modelled table is the identity translation.
General theorems quantify over an arbitrary translation instead. -/
def specTranslate (k : String) : String := k

/-- The special-cased rendering of an `EventType` filter value inside
`Filter._set` (objects.py lines 794-798):
`value = f"MOD{'_' if value != EventType.file_changed else ''}{value.name.upper()}"`
when `value.value < 6`, else `f"USER_{value.name.upper()}"`. -/
def renderEventType (e : EventType) : String :=
  if e.val < 6 then
    "MOD" ++ (if e ≠ EventType.file_changed then "_" else "") ++ pyUpper e.pyname
  else
    "USER_" ++ pyUpper e.pyname

/-- Embedding of `Filter._set(key, value, text)` (objects.py lines 788-803).
The Python `text` parameter is always one of the fixed format strings
`"{}"`, `"{}-not"`, ..., so `text.format(key)` is modelled as `key ++ sfx`.
The filter's `__dict__` is the `PyDict` being threaded. When the translated
key is `"event_type"` the source evaluates `value.value` and `value.name`:
for a non-enum value (`None`, `str`, `int`) that raises `AttributeError`
before anything is set, modelled as `none`; for an enum member of another
class the comparison `value != EventType.file_changed` is always true, so
it renders `MOD_<NAME>` below the threshold and `USER_<NAME>` at or above
it. -/
def Filter.fset (tr : String → String) (d : PyDict) (key : String)
    (value : PyVal) (sfx : String) : Option PyDict :=
  let key := tr key
  let rendered : Option PyVal :=
    if key = "event_type" then
      match value with
      | .event e => some (.str (renderEventType e))
      | .enumv name v =>
          some (.str (if v < 6 then "MOD_" ++ pyUpper name
                      else "USER_" ++ pyUpper name))
      | _ => none
    else some value
  rendered.map fun value =>
    let value :=
      match value with
      | .event e => .int e.val
      | .enumv _ v => .int v
      | v => v
    dsetKey d (key ++ sfx) value

/-- `Filter.equals` applied to one keyword binding: `self._set(key, value)`
with the default format string (no suffix). -/
def Filter.equalsOne (tr : String → String) (d : PyDict) (key : String)
    (value : PyVal) : Option PyDict :=
  Filter.fset tr d key value ""

/-- `Filter.not_equals`: `self._set(key, value, "{}-not")`. -/
def Filter.notEqualsOne (tr : String → String) (d : PyDict) (key : String)
    (value : PyVal) : Option PyDict :=
  Filter.fset tr d key value "-not"

/-- `Filter.like`: `self._set(key, value, "{}-lk")`. -/
def Filter.likeOne (tr : String → String) (d : PyDict) (key : String)
    (value : PyVal) : Option PyDict :=
  Filter.fset tr d key value "-lk"

/-- `Filter.not_like`: `self._set(key, value, "{}-not-lk")`. -/
def Filter.notLikeOne (tr : String → String) (d : PyDict) (key : String)
    (value : PyVal) : Option PyDict :=
  Filter.fset tr d key value "-not-lk"

/-- `Filter.values_in`: `self._set(key, ",".join(str(x) for x in value), "{}-in")`. -/
def Filter.valuesInOne (tr : String → String) (d : PyDict) (key : String)
    (value : List PyVal) : Option PyDict :=
  Filter.fset tr d key (.str (String.intercalate "," (value.map pyStr))) "-in"

/-- `Filter.values_not_in`: the same comma-join with `"{}-not-in"`. -/
def Filter.valuesNotInOne (tr : String → String) (d : PyDict) (key : String)
    (value : List PyVal) : Option PyDict :=
  Filter.fset tr d key (.str (String.intercalate "," (value.map pyStr))) "-not-in"

/-- `Filter.max`: `self._set(key, value, "{}-max")`. -/
def Filter.maxOne (tr : String → String) (d : PyDict) (key : String)
    (value : PyVal) : Option PyDict :=
  Filter.fset tr d key value "-max"

/-- `Filter.min`: `self._set(key, value, "{}-min")`. -/
def Filter.minOne (tr : String → String) (d : PyDict) (key : String)
    (value : PyVal) : Option PyDict :=
  Filter.fset tr d key value "-min"

/-- `Filter.smaller_than`: `self._set(key, value, "{}-st")`. -/
def Filter.smallerThanOne (tr : String → String) (d : PyDict) (key : String)
    (value : PyVal) : Option PyDict :=
  Filter.fset tr d key value "-st"

/-- `Filter.greater_than`: `self._set(key, value, "{}-gt")`. -/
def Filter.greaterThanOne (tr : String → String) (d : PyDict) (key : String)
    (value : PyVal) : Option PyDict :=
  Filter.fset tr d key value "-gt"

/-- `Filter.bitwise`: `self._set(key, value, "{}-bitwise-and")`. -/
def Filter.bitwiseOne (tr : String → String) (d : PyDict) (key : String)
    (value : PyVal) : Option PyDict :=
  Filter.fset tr d key value "-bitwise-and"

/-- `Filter.sort(key, reverse)`: `self._sort = key if not reverse else f"-{key}"`
(no `_set`, no translation). -/
def Filter.sortSet (d : PyDict) (key : String) (reverse : Bool) : PyDict :=
  dsetKey d "_sort" (.str (if reverse then "-" ++ key else key))

/-- `Event.type` (objects.py lines 121-126): parses the wire event-type
string back to an `EventType` member; `none` models the `KeyError` of an
unknown member name. -/
def eventTypeFromRaw (raw : String) : Option EventType :=
  if pyStarts raw "MOD" then
    EventType.fromName (pyLower (pyReplace (pyReplace raw "MOD_" "") "MOD" ""))
  else
    EventType.fromName (pyLower (pyReplace raw "USER_" ""))

/-! ## Pagination (`src/async_modio/objects.py`, lines 962-1008) -/

/-- The pagination metadata echoed by list endpoints. Python ints are
modelled as `Int`; `//` is Python floor division (`Int.fdiv`). -/
structure Pagination where
  count : Int
  limit : Int
  offset : Int
  total : Int
deriving DecidableEq, Repr

/-- `Pagination.max`: `(self.offset + self.count) == self.total`. -/
def Pagination.max (p : Pagination) : Bool :=
  p.offset + p.count = p.total

/-- `Pagination.min`: `self.offset == 0`. -/
def Pagination.min (p : Pagination) : Bool :=
  p.offset = 0

/-- `Pagination.next`:
`self.offset + self.limit if not self.max() else self.offset`. -/
def Pagination.next (p : Pagination) : Int :=
  if ¬ p.max then p.offset + p.limit else p.offset

/-- `Pagination.previous`:
`self.offset - self.limit if not self.min() else self.offset`. -/
def Pagination.previous (p : Pagination) : Int :=
  if ¬ p.min then p.offset - p.limit else p.offset

/-- `Pagination.page`: `self.offset // self.limit` (Python floor division). -/
def Pagination.page (p : Pagination) : Int :=
  Int.fdiv p.offset p.limit

/-! ## The client request pipeline (`src/modio/client.py`) -/

/-- The client attributes set in `Client.__init__` that the request pipeline
reads or writes: credentials, locale, and the three rate-limit fields.
`rate_limit`/`rate_remain` start as `None` and hold raw header strings once
seen; `rate_retry` starts as the int `0` and holds either a header string or
the int `0`. -/
structure ClientState where
  api_key : Option String
  access_token : Option String
  lang : String
  rate_limit : Option String
  rate_remain : Option String
  rate_retry : PyVal
deriving DecidableEq, Repr

/-- Python truthiness of an optional string attribute
(`if self.access_token:`): `None` and `""` are falsy. -/
def pyTruthy : Option String → Bool
  | none => false
  | some s => !s.isEmpty

/-- An optional string attribute as a Python value (`self.api_key` may be
`None`). -/
def pyOfOpt : Option String → PyVal
  | none => .noneV
  | some s => .str s

/-- Embedding of `Client._define_headers(h_type)` (client.py lines 127-153).
`none` models the exceptions the source raises before any request is sent:
`'Bearer ' + self.access_token` is a `TypeError` when `access_token` is
`None` (kinds 0 and 1), and any kind other than 0/1/2 leaves `headers`
unbound (`UnboundLocalError`). -/
def defineHeaders (c : ClientState) (h_type : Nat) :
    Option (List (String × String)) :=
  if h_type = 0 then
    c.access_token.map fun tok =>
      [("Authorization", "Bearer " ++ tok),
       ("Content-Type", "application/x-www-form-urlencoded"),
       ("Accept", "application/json"),
       ("Accept-Language", c.lang)]
  else if h_type = 1 then
    c.access_token.map fun tok =>
      [("Authorization", "Bearer " ++ tok),
       ("Accept", "application/json"),
       ("Accept-Language", c.lang)]
  else if h_type = 2 then
    some [("Accept", "application/json"),
          ("Accept-Language", c.lang),
          ("Content-Type", "application/x-www-form-urlencoded")]
  else
    none

/-- The HTTP verb of a dispatched request. -/
inductive Verb where
  | get
  | post
  | put
  | delete
deriving DecidableEq, Repr

/-- A fully constructed outgoing request, as handed to the `requests`
library: everything the pipeline decided before the HTTP round-trip. -/
structure BuiltRequest where
  verb : Verb
  url : String
  h_type : Nat
  headers : List (String × String)
  params : PyDict
deriving DecidableEq, Repr

/-- Embedding of the request-construction phase of `Client._get_request`
(client.py lines 155-164). The `filter` keyword is modelled as the separate
argument `filtOpt` (`f = fields.pop("filter", None)`); a missing or `None`
filter is replaced by a fresh empty `Filter()` dict. Then
`extra = {**fields, **f}`; if `not self.access_token` (falsy: `None` or
`""`), `extra["api_key"] = self.api_key` and `h_type = 2`. `none` models an
exception raised before dispatch (impossible here for kind 2, possible for
caller-requested kinds 0/1 with no token only when forcing did not apply). -/
def getRequestBuild (c : ClientState) (url : String) (h_type : Nat)
    (filtOpt : Option PyDict) (fields : PyDict) : Option BuiltRequest :=
  let f := filtOpt.getD []
  let extra := dictMerge fields f
  let ek : PyDict × Nat :=
    if !(pyTruthy c.access_token) then
      (dsetKey extra "api_key" (pyOfOpt c.api_key), 2)
    else
      (extra, h_type)
  (defineHeaders c ek.2).map fun hs =>
    { verb := .get, url := url, h_type := ek.2, headers := hs, params := ek.1 }

/-- Embedding of the request-construction phase of `Client._post_request`
(client.py lines 167-169): `requests.post(url, headers=self._define_headers(h_type), **fields)`.
No filter handling, no api-key attachment, no header-kind forcing; `fields`
is passed through to the transport. -/
def postRequestBuild (c : ClientState) (url : String) (h_type : Nat)
    (fields : PyDict) : Option BuiltRequest :=
  (defineHeaders c h_type).map fun hs =>
    { verb := .post, url := url, h_type := h_type, headers := hs, params := fields }

/-- Embedding of the request-construction phase of `Client._put_request`
(client.py lines 171-173), identical to the POST case but for the verb. -/
def putRequestBuild (c : ClientState) (url : String) (h_type : Nat)
    (fields : PyDict) : Option BuiltRequest :=
  (defineHeaders c h_type).map fun hs =>
    { verb := .put, url := url, h_type := h_type, headers := hs, params := fields }

/-- Embedding of the request-construction phase of `Client._delete_request`
(client.py lines 175-177), identical to the POST case but for the verb. -/
def deleteRequestBuild (c : ClientState) (url : String) (h_type : Nat)
    (fields : PyDict) : Option BuiltRequest :=
  (defineHeaders c h_type).map fun hs =>
    { verb := .delete, url := url, h_type := h_type, headers := hs, params := fields }

/-! ## Response processing (`Client._error_check`, client.py lines 87-125) -/

/-- The decoded JSON body of a response, as far as `_error_check` inspects
it: either a body whose top level has an `"error"` key (with the `code`,
`message` and optional `errors` sub-fields the method reads), or any other
JSON payload, which is returned to the caller untouched (abstracted by an
opaque tag). -/
inductive JsonBody where
  | withError (code : Int) (message : String)
      (errors : Option (List (String × String)))
  | plain (payload : String)
deriving DecidableEq, Repr

/-- A completed HTTP response as `_error_check` sees it: status code,
headers (looked up case-insensitively, as `requests`' header mapping does),
and `body = none` when `r.json()` would raise (e.g. an empty body). -/
structure PyResponse where
  status_code : Int
  headers : List (String × String)
  body : Option JsonBody
deriving DecidableEq, Repr

/-- `r.headers.get(k, default)` without the default: `requests` response
headers compare names case-insensitively. -/
def hget (hs : List (String × String)) (k : String) : Option String :=
  (hs.find? (fun p => pyLower p.1 == pyLower k)).map Prod.snd

/-- The rate-limit bookkeeping at the top of `_error_check` (lines 89-91):
`rate_limit` and `rate_remain` default to their previous values when the
header is absent; `rate_retry` defaults to the int `0`. -/
def updateRates (c : ClientState) (hs : List (String × String)) : ClientState :=
  { c with
    rate_limit := (hget hs "X-RateLimit-Limit").orElse fun _ => c.rate_limit
    rate_remain := (hget hs "X-RateLimit-Remaining").orElse fun _ => c.rate_remain
    rate_retry :=
      match hget hs "X-Ratelimit-RetryAfter" with
      | some v => .str v
      | none => .int 0 }

/-- The typed exceptions `_error_check` raises, one per `errors.py` class it
instantiates (carrying exactly the arguments passed at the raise site). -/
inductive ApiError where
  | badRequest (msg : String)
  | unauthorized (msg : String)
  | forbidden (msg : String)
  | notFound (msg : String)
  | methodNotAllowed (msg : String)
  | notAcceptable (msg : String)
  | gone (msg : String)
  | unprocessableEntity (msg : String) (errors : Option (List (String × String)))
  | tooManyRequests (msg : String) (retry : PyVal)
  | modioException (msg : String)
deriving DecidableEq, Repr

/-- What a call to `_error_check` does after updating the rate-limit state:
return the raw response object (204), return the decoded JSON unmodified,
raise a typed API error, or propagate the JSON decoder's exception for an
unparseable body. -/
inductive CheckOutcome where
  | rawResponse
  | payload (data : String)
  | raised (e : ApiError)
  | parseFailed
deriving DecidableEq, Repr

/-- Embedding of `Client._error_check(r)` (client.py lines 87-125), as a
function from the prior client state and the response to the updated state
and the outcome. -/
def errorCheck (c : ClientState) (r : PyResponse) :
    ClientState × CheckOutcome :=
  let c := updateRates c r.headers
  if r.status_code = 204 then
    (c, .rawResponse)
  else
    match r.body with
    | none => (c, .parseFailed)
    | some (.plain payload) => (c, .payload payload)
    | some (.withError code msg errs) =>
      (c, .raised (
        if code = 400 then .badRequest msg
        else if code = 401 then .unauthorized msg
        else if code = 403 then .forbidden msg
        else if code = 404 then .notFound msg
        else if code = 405 then .methodNotAllowed msg
        else if code = 406 then .notAcceptable msg
        else if code = 410 then .gone msg
        else if code = 422 then .unprocessableEntity msg errs
        else if code = 429 then .tooManyRequests msg c.rate_retry
        else .modioException msg))

/-- The error taxonomy exactly as the spec's ErrorClassifier section words
it, written independently of the source for the refinement claim: a
deterministic map from the envelope's code, message and sub-errors (and the
just-updated retry-after value) to the error kind. -/
def specClassify (code : Int) (msg : String)
    (errs : Option (List (String × String))) (retry : PyVal) : ApiError :=
  if code = 400 then .badRequest msg
  else if code = 401 then .unauthorized msg
  else if code = 403 then .forbidden msg
  else if code = 404 then .notFound msg
  else if code = 405 then .methodNotAllowed msg
  else if code = 406 then .notAcceptable msg
  else if code = 410 then .gone msg
  else if code = 422 then .unprocessableEntity msg errs
  else if code = 429 then .tooManyRequests msg retry
  else .modioException msg

/-- The event-type wire rendering exactly as the spec's edge-case sentence
words it, written independently of the source for comparison: values below
the threshold 6 render as `MOD_<NAME>`, except the file-changed case which
uses the literal token `MOD` with no underscore, and values at or above 6
render as `USER_<NAME>`. -/
def specEventRender (e : EventType) : String :=
  if e = EventType.file_changed then "MOD" ++ pyUpper e.pyname
  else if e.val < 6 then "MOD_" ++ pyUpper e.pyname
  else "USER_" ++ pyUpper e.pyname

/-! ## Dictionary lemmas -/

theorem dget_append (a b : PyDict) (k : String) :
    dget (a ++ b) k = (dget a k).orElse (fun _ => dget b k) := by
  induction a with
  | nil => rfl
  | cons p rest ih =>
    by_cases h : p.1 = k <;> simp [dget, h, ih, Option.orElse]

theorem dget_filter_self (d : PyDict) (k : String) :
    dget (d.filter (fun p => p.1 != k)) k = none := by
  induction d with
  | nil => rfl
  | cons p rest ih =>
    by_cases h : p.1 = k
    · have hb : (p.1 != k) = false := by simp [h]
      simp [List.filter_cons, hb, ih]
    · have hb : (p.1 != k) = true := by simp [bne_iff_ne]; exact h
      simp [List.filter_cons, hb, dget, h, ih]

theorem dget_filter_other (d : PyDict) (k k' : String) (h : k' ≠ k) :
    dget (d.filter (fun p => p.1 != k)) k' = dget d k' := by
  induction d with
  | nil => rfl
  | cons p rest ih =>
    by_cases hp : p.1 = k
    · have hb : (p.1 != k) = false := by simp [hp]
      have hp' : p.1 ≠ k' := by rw [hp]; exact fun hh => h hh.symm
      simp [List.filter_cons, hb, dget, hp', ih]
    · have hb : (p.1 != k) = true := by simp [bne_iff_ne]; exact hp
      by_cases hq : p.1 = k'
      · simp [List.filter_cons, hb, dget, hq, h]
      · simp [List.filter_cons, hb, dget, hq, ih]

theorem dget_dsetKey (d : PyDict) (k : String) (v : PyVal) (k' : String) :
    dget (dsetKey d k v) k' = if k' = k then some v else dget d k' := by
  unfold dsetKey
  rw [dget_append]
  by_cases h : k' = k
  · subst h
    simp [dget_filter_self, dget, Option.orElse]
  · rw [dget_filter_other d k k' h]
    cases hd : dget d k' with
    | none => simp [Option.orElse, dget, h, Ne.symm h]
    | some v' => simp [Option.orElse, h]

theorem dget_eq_none_of_not_mem (d : PyDict) (k : String)
    (h : k ∉ d.map Prod.fst) : dget d k = none := by
  induction d with
  | nil => rfl
  | cons p rest ih =>
    simp only [List.map_cons, List.mem_cons] at h
    push_neg at h
    have hp : p.1 ≠ k := fun hh => h.1 hh.symm
    simp [dget, hp, ih h.2]

theorem dget_dictMerge (a b : PyDict) (k : String)
    (hb : (b.map Prod.fst).Nodup) :
    dget (dictMerge a b) k = (dget b k).orElse (fun _ => dget a k) := by
  induction b generalizing a with
  | nil => rfl
  | cons p rest ih =>
    simp only [List.map_cons, List.nodup_cons] at hb
    have step : dictMerge a (p :: rest) = dictMerge (dsetKey a p.1 p.2) rest := rfl
    rw [step, ih _ hb.2]
    by_cases h : p.1 = k
    · subst h
      have hrest : dget rest p.1 = none :=
        dget_eq_none_of_not_mem rest p.1 (by simpa using hb.1)
      simp [hrest, dget, dget_dsetKey, Option.orElse]
    · have h' : k ≠ p.1 := fun hh => h hh.symm
      simp [dget, h, dget_dsetKey, h']

/-- The state component of `errorCheck` is always the rate-limit update
applied to this response's headers, whatever the outcome. -/
theorem errorCheck_fst (c : ClientState) (r : PyResponse) :
    (errorCheck c r).1 = updateRates c r.headers := by
  unfold errorCheck
  split
  · rfl
  · split <;> rfl

/-! ## Claim theorems -/

/-- C10: for every `EventType` value `v`, feeding the wire string produced
by the filter's event-type serialization rule back through the `Event.type`
parser (strip the `MOD_`/`MOD`/`USER_` token, lower-case, look the member
up by name) yields `v` again. -/
theorem eventType_serialization_roundtrip (e : EventType) :
    eventTypeFromRaw (renderEventType e) = some e := by
  cases e <;> rfl

/-- C7: for every `Pagination` with `limit > 0`: `max` holds iff
`offset + count == total`; `min` holds iff `offset == 0`; `page` is floor
division of `offset` by `limit`; `next` returns `offset + limit` off the
last page and the unchanged `offset` on it — and in particular
`count=20, limit=20, offset=0, total=57` gives `max=False`, `next=20`,
`page=0`, while `count=17, offset=40, total=57` gives `max=True` with
`next` staying `40`. -/
theorem pagination_arithmetic (p : Pagination) (hl : 0 < p.limit) :
    (p.max = true ↔ p.offset + p.count = p.total) ∧
    (p.min = true ↔ p.offset = 0) ∧
    p.page = Int.fdiv p.offset p.limit ∧
    (p.max = false → p.next = p.offset + p.limit) ∧
    (p.max = true → p.next = p.offset) ∧
    Pagination.max ⟨20, 20, 0, 57⟩ = false ∧
    Pagination.next ⟨20, 20, 0, 57⟩ = 20 ∧
    Pagination.page ⟨20, 20, 0, 57⟩ = 0 ∧
    Pagination.max ⟨17, 20, 40, 57⟩ = true ∧
    Pagination.next ⟨17, 20, 40, 57⟩ = 40 := by
  refine ⟨?_, ?_, rfl, ?_, ?_, by decide, by decide, by decide, by decide,
    by decide⟩
  · simp [Pagination.max]
  · simp [Pagination.min]
  · intro h
    simp [Pagination.next, h]
  · intro h
    simp [Pagination.next, h]

/-- Concrete instantiation of `pagination_arithmetic` at the claim's first
example page. -/
theorem pagination_arithmetic_witness :
    (Pagination.max ⟨20, 20, 0, 57⟩ = true ↔ (0 : Int) + 20 = 57) ∧
    (Pagination.min ⟨20, 20, 0, 57⟩ = true ↔ (0 : Int) = 0) ∧
    Pagination.page ⟨20, 20, 0, 57⟩ = Int.fdiv 0 20 ∧
    (Pagination.max ⟨20, 20, 0, 57⟩ = false →
      Pagination.next ⟨20, 20, 0, 57⟩ = 0 + 20) ∧
    (Pagination.max ⟨20, 20, 0, 57⟩ = true →
      Pagination.next ⟨20, 20, 0, 57⟩ = 0) ∧
    Pagination.max ⟨20, 20, 0, 57⟩ = false ∧
    Pagination.next ⟨20, 20, 0, 57⟩ = 20 ∧
    Pagination.page ⟨20, 20, 0, 57⟩ = 0 ∧
    Pagination.max ⟨17, 20, 40, 57⟩ = true ∧
    Pagination.next ⟨17, 20, 40, 57⟩ = 40 :=
  pagination_arithmetic ⟨20, 20, 0, 57⟩ (by decide)

/-- C4: for every response processed by `_error_check`, `rate_limit` and
`rate_remain` keep their previous value when their header is missing
(sticky last-known-value semantics), and `rate_retry` defaults to the int
`0` when its header is absent. -/
theorem rate_limits_sticky (c : ClientState) (r : PyResponse) :
    (hget r.headers "X-RateLimit-Limit" = none →
      (errorCheck c r).1.rate_limit = c.rate_limit) ∧
    (hget r.headers "X-RateLimit-Remaining" = none →
      (errorCheck c r).1.rate_remain = c.rate_remain) ∧
    (hget r.headers "X-Ratelimit-RetryAfter" = none →
      (errorCheck c r).1.rate_retry = PyVal.int 0) := by
  rw [errorCheck_fst]
  refine ⟨?_, ?_, ?_⟩ <;> intro h <;> simp [updateRates, h, Option.orElse]

/-- Concrete instantiation of `rate_limits_sticky` on a response carrying
no rate-limit headers at all: the previous limit and remaining values
survive and the retry-after field resets to `0`. -/
theorem rate_limits_sticky_witness :
    (errorCheck ⟨some "k", none, "en", some "120", some "40", PyVal.str "7"⟩
        ⟨200, [], some (.plain "x")⟩).1.rate_limit = some "120" ∧
    (errorCheck ⟨some "k", none, "en", some "120", some "40", PyVal.str "7"⟩
        ⟨200, [], some (.plain "x")⟩).1.rate_remain = some "40" ∧
    (errorCheck ⟨some "k", none, "en", some "120", some "40", PyVal.str "7"⟩
        ⟨200, [], some (.plain "x")⟩).1.rate_retry = PyVal.int 0 := by
  have h := rate_limits_sticky
    ⟨some "k", none, "en", some "120", some "40", PyVal.str "7"⟩
    ⟨200, [], some (.plain "x")⟩
  exact ⟨h.1 rfl, h.2.1 rfl, h.2.2 rfl⟩

/-- C6: every response with HTTP status 204 is returned as a successful
empty result after the rate-limit update, whatever its body — including an
unparseable (empty) body — so the body is never decoded as JSON and no
parse failure can arise. -/
theorem no_content_skips_parsing (c : ClientState) (r : PyResponse)
    (h : r.status_code = 204) :
    errorCheck c r = (updateRates c r.headers, CheckOutcome.rawResponse) := by
  simp [errorCheck, h]

/-- Concrete instantiation of `no_content_skips_parsing` on a 204 response
whose body `r.json()` could not parse. -/
theorem no_content_skips_parsing_witness :
    errorCheck ⟨none, some "t", "en", none, none, PyVal.int 0⟩ ⟨204, [], none⟩ =
      (updateRates ⟨none, some "t", "en", none, none, PyVal.int 0⟩ [],
       CheckOutcome.rawResponse) :=
  no_content_skips_parsing _ _ rfl

/-- C5: every decoded error envelope is classified deterministically from
its code by the fixed taxonomy (`specClassify`, worded from the spec), with
422 carrying the sub-error list if present else none, and 429 carrying the
retry-after value just updated from this same response's headers, not a
stale value. -/
theorem error_classification (c : ClientState) (r : PyResponse) (code : Int)
    (msg : String) (errs : Option (List (String × String)))
    (hb : r.body = some (.withError code msg errs))
    (hs : r.status_code ≠ 204) :
    errorCheck c r =
      (updateRates c r.headers,
       CheckOutcome.raised (specClassify code msg errs
         (match hget r.headers "X-Ratelimit-RetryAfter" with
          | some v => PyVal.str v
          | none => PyVal.int 0))) := by
  obtain ⟨sc, hdrs, body⟩ := r
  simp only at hb hs ⊢
  subst hb
  simp only [errorCheck, if_neg hs]
  rfl

/-- Concrete instantiation of `error_classification` on a 429 envelope: the
raised error carries the retry-after string of this very response. -/
theorem error_classification_witness :
    errorCheck ⟨some "k", none, "en", none, none, PyVal.int 0⟩
        ⟨429, [("X-Ratelimit-RetryAfter", "30")],
         some (.withError 429 "slow down" none)⟩ =
      (updateRates ⟨some "k", none, "en", none, none, PyVal.int 0⟩
         [("X-Ratelimit-RetryAfter", "30")],
       CheckOutcome.raised (specClassify 429 "slow down" none (PyVal.str "30"))) :=
  error_classification _ _ 429 "slow down" none rfl (by decide)

/-- C8: filter serialization appends the fixed per-category token to the
translated field name and renders values per the grammar: `values_in`
comma-joins an ordered sequence under the `-in` key (`field=[3,11,16]`
gives `{field-in: "3,11,16"}`), `not_like` uses `-not-lk`
(`name="*Pack"` gives `{name-not-lk: "*Pack"}`), `sort` with
`reverse=True` renders the sort key as `"-id"`, and equality adds no
token. -/
theorem filter_serialization_grammar (tr : String → String) (d : PyDict)
    (key sk s : String) (xs : List Int) (hk : tr key ≠ "event_type") :
    (Filter.valuesInOne tr d key (xs.map PyVal.int)).map
        (fun d' => dget d' (tr key ++ "-in")) =
      some (some (.str (String.intercalate "," (xs.map toString)))) ∧
    (Filter.notLikeOne tr d key (.str s)).map
        (fun d' => dget d' (tr key ++ "-not-lk")) = some (some (.str s)) ∧
    dget (Filter.sortSet d sk true) "_sort" = some (.str ("-" ++ sk)) ∧
    (Filter.equalsOne tr d key (.str s)).map (fun d' => dget d' (tr key)) =
      some (some (.str s)) ∧
    (Filter.valuesInOne specTranslate d "field"
        [.int 3, .int 11, .int 16]).map (fun d' => dget d' "field-in") =
      some (some (.str "3,11,16")) ∧
    (Filter.notLikeOne specTranslate d "name" (.str "*Pack")).map
        (fun d' => dget d' "name-not-lk") = some (some (.str "*Pack")) ∧
    dget (Filter.sortSet d "id" true) "_sort" = some (.str "-id") := by
  refine ⟨?_, ?_, ?_, ?_, ?_, ?_, ?_⟩
  · have hcomp : (pyStr ∘ PyVal.int) = (toString : Int → String) :=
      funext fun _ => rfl
    simp [Filter.valuesInOne, Filter.fset, hk, dget_dsetKey, List.map_map,
      hcomp]
  · simp [Filter.notLikeOne, Filter.fset, hk, dget_dsetKey]
  · simp [Filter.sortSet, dget_dsetKey]
  · simp [Filter.equalsOne, Filter.fset, hk, dget_dsetKey]
  · simp [Filter.valuesInOne, Filter.fset, specTranslate, dget_dsetKey, pyStr]
    decide
  · simp [Filter.notLikeOne, Filter.fset, specTranslate, dget_dsetKey]
  · simp [Filter.sortSet, dget_dsetKey]

/-- Concrete instantiation of `filter_serialization_grammar` at the spec's
example field names (which do not translate to the special-cased
`event_type` wire key). -/
theorem filter_serialization_grammar_witness :
    (Filter.valuesInOne specTranslate [] "field"
        ([3, 11, 16].map PyVal.int)).map
        (fun d' => dget d' (specTranslate "field" ++ "-in")) =
      some (some (.str (String.intercalate ","
        ([(3 : Int), 11, 16].map toString)))) ∧
    (Filter.notLikeOne specTranslate [] "field" (.str "*Pack")).map
        (fun d' => dget d' (specTranslate "field" ++ "-not-lk")) =
      some (some (.str "*Pack")) ∧
    dget (Filter.sortSet [] "id" true) "_sort" = some (.str ("-" ++ "id")) ∧
    (Filter.equalsOne specTranslate [] "field" (.str "*Pack")).map
        (fun d' => dget d' (specTranslate "field")) =
      some (some (.str "*Pack")) ∧
    (Filter.valuesInOne specTranslate [] "field"
        [.int 3, .int 11, .int 16]).map (fun d' => dget d' "field-in") =
      some (some (.str "3,11,16")) ∧
    (Filter.notLikeOne specTranslate [] "name" (.str "*Pack")).map
        (fun d' => dget d' "name-not-lk") = some (some (.str "*Pack")) ∧
    dget (Filter.sortSet [] "id" true) "_sort" = some (.str "-id") :=
  filter_serialization_grammar specTranslate [] "field" "id" "*Pack"
    [3, 11, 16] (by decide)

/-- C9: an `EventType` value used as an event-type filter value serializes
by the special-cased rule worded in the spec (`specEventRender`): numeric
value below 6 renders `MOD_` followed by the upper-cased member name,
except the file-changed case which uses the bare token `MOD` (giving
`MODFILE_CHANGED`), and value 6 or above renders `USER_` followed by the
upper-cased member name. -/
theorem eventType_filter_rendering (tr : String → String) (d : PyDict)
    (key : String) (e : EventType) (h : tr key = "event_type") :
    (Filter.equalsOne tr d key (.event e)).map
        (fun d' => dget d' "event_type") =
      some (some (.str (specEventRender e))) := by
  have hr : renderEventType e = specEventRender e := by cases e <;> rfl
  simp [Filter.equalsOne, Filter.fset, h, dget_dsetKey, hr]

/-- Concrete instantiation of `eventType_filter_rendering` under the
spec-modelled translation table. -/
theorem eventType_filter_rendering_witness :
    (Filter.equalsOne specTranslate [] "event_type"
        (.event .team_join)).map (fun d' => dget d' "event_type") =
      some (some (.str (specEventRender .team_join))) :=
  eventType_filter_rendering specTranslate [] "event_type" .team_join rfl

/-- C1 counterexample: with an explicit extra parameter `tag=1` and a
filter serializing `tag=2`, the outgoing parameter set built by
`_get_request` carries the filter's value `2`, not the explicit extra
parameter's value `1` — `extra = {**fields, **f}` lets the filter win. -/
theorem merge_extraParams_lose_counterexample :
    (getRequestBuild ⟨some "key", some "tok", "en", none, none, PyVal.int 0⟩
        "/games" 0 (some [("tag", PyVal.int 2)]) [("tag", PyVal.int 1)]).map
      (fun req => dget req.params "tag") = some (some (PyVal.int 2)) ∧
    (getRequestBuild ⟨some "key", some "tok", "en", none, none, PyVal.int 0⟩
        "/games" 0 (some [("tag", PyVal.int 2)]) [("tag", PyVal.int 1)]).map
      (fun req => dget req.params "tag") ≠ some (some (PyVal.int 1)) :=
  ⟨rfl, by decide⟩

/-- C1 amended: in `_get_request`, the serialized filter parameters are
merged with the explicit extra parameters such that for every key present
in both, the FILTER's value wins in the final outgoing parameter set;
keys absent from the filter keep the explicit extra parameter's value. -/
theorem merge_filter_wins (c : ClientState) (url : String)
    (fields fd : PyDict) (key : String)
    (hp : pyTruthy c.access_token = true)
    (hnd : (fd.map Prod.fst).Nodup) :
    (getRequestBuild c url 0 (some fd) fields).map
        (fun req => dget req.params key) =
      some ((dget fd key).orElse (fun _ => dget fields key)) := by
  obtain ⟨tok, htok⟩ : ∃ t, c.access_token = some t := by
    cases h : c.access_token with
    | none => rw [h] at hp; simp [pyTruthy] at hp
    | some t => exact ⟨t, rfl⟩
  rw [htok] at hp
  simp [getRequestBuild, hp, defineHeaders, htok,
    dget_dictMerge fields fd key hnd]

/-- Concrete instantiation of `merge_filter_wins` on a single colliding
key. -/
theorem merge_filter_wins_witness :
    (getRequestBuild ⟨some "k", some "t", "en", none, none, PyVal.int 0⟩
        "/g" 0 (some [("a", PyVal.int 2)]) [("a", PyVal.int 1)]).map
      (fun req => dget req.params "a") = some (some (PyVal.int 2)) :=
  merge_filter_wins ⟨some "k", some "t", "en", none, none, PyVal.int 0⟩
    "/g" [("a", PyVal.int 1)] [("a", PyVal.int 2)] "a" (by decide) (by decide)

/-- C2 counterexample: a client configured with neither an API key nor an
access token constructs a GET request without any validation failure — the
request is built (and hence dispatched) with kind-2 headers and a `None`
`api_key` parameter. -/
theorem unauthenticated_dispatch_counterexample :
    getRequestBuild ⟨none, none, "en", none, none, PyVal.int 0⟩ "/games" 0
        none [] =
      some ⟨.get, "/games", 2,
        [("Accept", "application/json"), ("Accept-Language", "en"),
         ("Content-Type", "application/x-www-form-urlencoded")],
        [("api_key", PyVal.noneV)]⟩ :=
  rfl

/-- C2 amended: with neither credential configured, GET request
construction succeeds — no validation happens before dispatch; the request
goes out with forced kind-2 headers and the absent API key attached as a
`None`-valued `api_key` parameter, and failure can only surface from the
server's response. -/
theorem unauthenticated_get_dispatches (lang url : String) (h_type : Nat)
    (filtOpt : Option PyDict) (fields : PyDict) (rl rr : Option String)
    (rt : PyVal) :
    (getRequestBuild ⟨none, none, lang, rl, rr, rt⟩ url h_type filtOpt
        fields).map (fun req => (req.h_type, dget req.params "api_key")) =
      some (2, some PyVal.noneV) := by
  simp [getRequestBuild, pyTruthy, defineHeaders, pyOfOpt, dget_dsetKey]

/-- C3 counterexample: a POST with caller-requested kind 0 on a client
holding an API key but no access token is NOT forced to kind-2 headers:
`_post_request` never reaches dispatch (the bearer-header construction
raises on the absent token), so no request with kind 2 exists. -/
theorem post_no_forcing_counterexample :
    (postRequestBuild ⟨some "key", none, "en", none, none, PyVal.int 0⟩
        "/games" 0 []).map (fun req => req.h_type) = none ∧
    (none : Option Nat) ≠ some 2 :=
  ⟨rfl, by decide⟩

/-- C3 amended: the no-token fallback (force kind 2, attach `api_key` as a
parameter) applies only to GET requests; POST/PUT/DELETE pass the
caller-requested kind straight through — with no token and a bearer kind
they fail before dispatch instead of falling back — and when an access
token is present every verb uses the caller-requested kind 0/1 bearer
headers. -/
theorem header_kind_selection (ak : Option String) (tok lang url : String)
    (h_type : Nat) (filtOpt : Option PyDict) (fields : PyDict)
    (rl rr : Option String) (rt : PyVal) (htok : tok.isEmpty = false) :
    (getRequestBuild ⟨ak, none, lang, rl, rr, rt⟩ url h_type filtOpt
        fields).map (fun req => (req.h_type, dget req.params "api_key")) =
      some (2, some (pyOfOpt ak)) ∧
    postRequestBuild ⟨ak, none, lang, rl, rr, rt⟩ url 0 fields = none ∧
    putRequestBuild ⟨ak, none, lang, rl, rr, rt⟩ url 1 fields = none ∧
    deleteRequestBuild ⟨ak, none, lang, rl, rr, rt⟩ url 0 fields = none ∧
    (getRequestBuild ⟨ak, some tok, lang, rl, rr, rt⟩ url 0 filtOpt
        fields).map (fun req => req.h_type) = some 0 ∧
    (getRequestBuild ⟨ak, some tok, lang, rl, rr, rt⟩ url 1 filtOpt
        fields).map (fun req => req.h_type) = some 1 ∧
    postRequestBuild ⟨ak, some tok, lang, rl, rr, rt⟩ url 0 fields =
      some ⟨.post, url, 0,
        [("Authorization", "Bearer " ++ tok),
         ("Content-Type", "application/x-www-form-urlencoded"),
         ("Accept", "application/json"),
         ("Accept-Language", lang)], fields⟩ ∧
    putRequestBuild ⟨ak, some tok, lang, rl, rr, rt⟩ url 1 fields =
      some ⟨.put, url, 1,
        [("Authorization", "Bearer " ++ tok),
         ("Accept", "application/json"),
         ("Accept-Language", lang)], fields⟩ ∧
    deleteRequestBuild ⟨ak, some tok, lang, rl, rr, rt⟩ url 0 fields =
      some ⟨.delete, url, 0,
        [("Authorization", "Bearer " ++ tok),
         ("Content-Type", "application/x-www-form-urlencoded"),
         ("Accept", "application/json"),
         ("Accept-Language", lang)], fields⟩ := by
  have ht : pyTruthy (some tok) = true := by simp [pyTruthy, htok]
  refine ⟨?_, ?_, ?_, ?_, ?_, ?_, ?_, ?_, ?_⟩
  · simp [getRequestBuild, pyTruthy, defineHeaders, dget_dsetKey]
  · simp [postRequestBuild, defineHeaders]
  · simp [putRequestBuild, defineHeaders]
  · simp [deleteRequestBuild, defineHeaders]
  · simp [getRequestBuild, ht, defineHeaders]
  · simp [getRequestBuild, ht, defineHeaders]
  · simp [postRequestBuild, defineHeaders]
  · simp [putRequestBuild, defineHeaders]
  · simp [deleteRequestBuild, defineHeaders]

/-- Concrete instantiation of `header_kind_selection` at an API-key-only
client and a bearer-token client. -/
theorem header_kind_selection_witness :
    (getRequestBuild ⟨some "key", none, "en", none, none, PyVal.int 0⟩
        "/g" 0 none []).map
      (fun req => (req.h_type, dget req.params "api_key")) =
      some (2, some (pyOfOpt (some "key"))) ∧
    postRequestBuild ⟨some "key", none, "en", none, none, PyVal.int 0⟩
      "/g" 0 [] = none ∧
    putRequestBuild ⟨some "key", none, "en", none, none, PyVal.int 0⟩
      "/g" 1 [] = none ∧
    deleteRequestBuild ⟨some "key", none, "en", none, none, PyVal.int 0⟩
      "/g" 0 [] = none ∧
    (getRequestBuild ⟨some "key", some "t", "en", none, none, PyVal.int 0⟩
        "/g" 0 none []).map (fun req => req.h_type) = some 0 ∧
    (getRequestBuild ⟨some "key", some "t", "en", none, none, PyVal.int 0⟩
        "/g" 1 none []).map (fun req => req.h_type) = some 1 ∧
    postRequestBuild ⟨some "key", some "t", "en", none, none, PyVal.int 0⟩
      "/g" 0 [] =
      some ⟨.post, "/g", 0,
        [("Authorization", "Bearer " ++ "t"),
         ("Content-Type", "application/x-www-form-urlencoded"),
         ("Accept", "application/json"),
         ("Accept-Language", "en")], []⟩ ∧
    putRequestBuild ⟨some "key", some "t", "en", none, none, PyVal.int 0⟩
      "/g" 1 [] =
      some ⟨.put, "/g", 1,
        [("Authorization", "Bearer " ++ "t"),
         ("Accept", "application/json"),
         ("Accept-Language", "en")], []⟩ ∧
    deleteRequestBuild ⟨some "key", some "t", "en", none, none, PyVal.int 0⟩
      "/g" 0 [] =
      some ⟨.delete, "/g", 0,
        [("Authorization", "Bearer " ++ "t"),
         ("Content-Type", "application/x-www-form-urlencoded"),
         ("Accept", "application/json"),
         ("Accept-Language", "en")], []⟩ :=
  header_kind_selection (some "key") "t" "en" "/g" 0 none [] none none
    (PyVal.int 0) rfl

end Modio
